import Mathlib

/-!
Shallow embedding of the annotation-overlay coordinate model and viewport
synchronization engine of the Margo PDF annotator
(src/frontend/renderer.js), together with theorems settling the frozen
claims about it.  Coordinates are modelled over the rationals: every
transformation in the source is a composition of additions, subtractions,
multiplications and divisions of finite values, so the rational model
reproduces the ideal arithmetic the source expresses.
-/

namespace Margo

/-! ## Coordinate transform

From renderer.js `handleSelectionEnd` (lines 852-869): the drag rectangle
in viewport coordinates is made relative to the page rect, divided by
`state.zoomLevel`, then divided by `state.renderScale` to obtain the stored
bounding box.  From `renderAnnotationOverlay` (lines 976-997): the stored
box is multiplied by `state.renderScale` and positioned inside the page
wrapper; the container-level CSS `scale(zoomLevel)` transform and the page
origin supply the remaining factor and offset on screen. -/

structure ScreenBox where
  left : ℚ
  top : ℚ
  width : ℚ
  height : ℚ
  deriving DecidableEq

structure BoundingBox where
  x : ℚ
  y : ℚ
  width : ℚ
  height : ℚ
  deriving DecidableEq

def captureBoxFromScreen (b : ScreenBox) (pageLeft pageTop zoom renderScale : ℚ) :
    BoundingBox :=
  { x := ((b.left - pageLeft) / zoom) / renderScale
    y := ((b.top - pageTop) / zoom) / renderScale
    width := (b.width / zoom) / renderScale
    height := (b.height / zoom) / renderScale }

def renderOverlayScreenBox (box : BoundingBox) (pageLeft pageTop zoom renderScale : ℚ) :
    ScreenBox :=
  { left := pageLeft + box.x * renderScale * zoom
    top := pageTop + box.y * renderScale * zoom
    width := box.width * renderScale * zoom
    height := box.height * renderScale * zoom }

/-! ## Zoom operations

From renderer.js `applyZoomAtPoint` (lines 659-689), `zoomIn`/`zoomOut`
(lines 1840-1848), `fitToWidth` (lines 1850-1861), `resetZoom`
(lines 1863-1866) and `handleWheelZoom` (lines 1868-1880). -/

structure ScrollPos where
  left : ℚ
  top : ℚ
  deriving DecidableEq

def applyZoomAtPoint (scroll : ScrollPos) (mouseX mouseY oldZoom newZoom : ℚ) :
    ScrollPos × ℚ :=
  let contentX := (scroll.left + mouseX) / oldZoom
  let contentY := (scroll.top + mouseY) / oldZoom
  (⟨contentX * newZoom - mouseX, contentY * newZoom - mouseY⟩, newZoom)

def zoomIn (z : ℚ) : ℚ := min (z + 1/10) 3

def zoomOut (z : ℚ) : ℚ := max (z - 1/10) (1/4)

def resetZoom : ℚ := 1

def fitToWidth (clientWidth pageRenderWidth : ℚ) : ℚ :=
  (clientWidth - 40) / pageRenderWidth

def handleWheelZoom (z deltaY : ℚ) : ℚ :=
  max (1/4) (min 3 (z + (if deltaY > 0 then -(1/10) else 1/10)))

/-! ## Current-page scan

From renderer.js `setupScrollListener` (lines 691-719): starting from page
1, scan the page wrappers in document order; stop at the first whose
vertical midpoint exceeds the viewer center, otherwise remember its page
number. -/

structure PageLayout where
  pageNum : ℕ
  offsetTop : ℚ
  offsetHeight : ℚ
  deriving DecidableEq

def scanCurrentPage : List PageLayout → ℚ → ℕ → ℕ
  | [], _, cur => cur
  | p :: rest, center, cur =>
    if p.offsetTop + p.offsetHeight / 2 > center then cur
    else scanCurrentPage rest center p.pageNum

def currentPageOnScroll (pages : List PageLayout) (scrollTop containerHeight : ℚ) : ℕ :=
  scanCurrentPage pages (scrollTop + containerHeight / 2) 1

/-- Stated from the spec sentence for the refinement comparison of claim
C7: the current page is the page immediately preceding the first page, in
document order, whose vertical midpoint exceeds the viewport center; page
1 when no page precedes that boundary. -/
def specCurrentPage (pages : List PageLayout) (center : ℚ) : ℕ :=
  match (pages.takeWhile fun p => decide (p.offsetTop + p.offsetHeight / 2 ≤ center)).getLast? with
  | some p => p.pageNum
  | none => 1

theorem scanCurrentPage_eq_spec (pages : List PageLayout) (center : ℚ) (cur : ℕ) :
    scanCurrentPage pages center cur =
      match (pages.takeWhile fun p => decide (p.offsetTop + p.offsetHeight / 2 ≤ center)).getLast? with
      | some p => p.pageNum
      | none => cur := by
  induction pages generalizing cur with
  | nil => rfl
  | cons p rest ih =>
    by_cases h : p.offsetTop + p.offsetHeight / 2 > center
    · have hb : ¬ (p.offsetTop + p.offsetHeight / 2 ≤ center) := not_le.mpr h
      simp [scanCurrentPage, List.takeWhile_cons, h, hb]
    · have hle : p.offsetTop + p.offsetHeight / 2 ≤ center := not_lt.mp h
      rw [scanCurrentPage]
      rw [if_neg h]
      rw [ih p.pageNum]
      rw [List.takeWhile_cons]
      rw [if_pos (decide_eq_true hle)]
      cases hl : (rest.takeWhile fun q => decide (q.offsetTop + q.offsetHeight / 2 ≤ center)) with
      | nil => simp
      | cons q l =>
        cases hgl : (q :: l).getLast? with
        | none => simp at hgl
        | some r => rw [List.getLast?_cons_cons, hgl]

/-! ## Selection capture

From renderer.js `handleSelectionEnd` (lines 809-886), `findTargetPage`
being the inlined page-wrapper scan of lines 829-845, together with
`disableScreenshotMode` (lines 764-771) and the `openAnnotationChat`
effects the success path performs.  The bitmap extracted by
`captureCanvasRegion` and the generated identifier and timestamp are
inputs of the model: the claims under test do not depend on their
values. -/

structure Message where
  id : String
  role : String
  content : String
  timestamp : String
  deriving DecidableEq

structure Annot where
  id : String
  page_number : ℕ
  bounding_box : BoundingBox
  image_base64 : String
  messages : List Message
  created_at : String
  deriving DecidableEq

structure PageRect where
  pageNum : ℕ
  left : ℚ
  top : ℚ
  right : ℚ
  bottom : ℚ
  deriving DecidableEq

def findTargetPage (pages : List PageRect) (cx cy : ℚ) : Option PageRect :=
  pages.find? fun r =>
    decide (cy ≥ r.top ∧ cy < r.bottom ∧ cx ≥ r.left ∧ cx < r.right)

structure SelState where
  isSelecting : Bool
  isScreenshotMode : Bool
  selectionOverlayHidden : Bool
  selectionBoxVisible : Bool
  selectionStart : Option (ℚ × ℚ)
  selectionEnd : Option (ℚ × ℚ)
  zoomLevel : ℚ
  renderScale : ℚ
  annots : List (String × Annot)
  currentAnnotId : Option String
  chatPanelHidden : Bool
  deriving DecidableEq

def handleSelectionEnd (s : SelState) (pages : List PageRect)
    (newId now imageData : String) : SelState :=
  if !s.isSelecting then s else
  match s.selectionStart, s.selectionEnd with
  | some st, some en =>
    let s := { s with isSelecting := false }
    let viewportLeft := min st.1 en.1
    let viewportTop := min st.2 en.2
    let width := |en.1 - st.1|
    let height := |en.2 - st.2|
    if width < 20 ∨ height < 20 then
      { s with selectionBoxVisible := false }
    else
      let selectionCenterX := viewportLeft + width / 2
      let selectionCenterY := viewportTop + height / 2
      match findTargetPage pages selectionCenterX selectionCenterY with
      | none => { s with selectionBoxVisible := false }
      | some page =>
        let box := captureBoxFromScreen ⟨viewportLeft, viewportTop, width, height⟩
          page.left page.top s.zoomLevel s.renderScale
        let ann : Annot :=
          { id := newId
            page_number := page.pageNum
            bounding_box := box
            image_base64 := imageData
            messages := []
            created_at := now }
        let s := { s with annots := s.annots ++ [(newId, ann)] }
        let s := { s with currentAnnotId := some newId, chatPanelHidden := false }
        { s with isScreenshotMode := false
                 selectionOverlayHidden := true
                 selectionBoxVisible := false
                 selectionStart := none
                 selectionEnd := none }
  | _, _ => { s with isSelecting := false }

/-! ## Visibility and auto-focus engine

From renderer.js `updateVisibleAnnotations` (lines 1033-1128),
`autoOpenAnnotationChat` (lines 1131-1143), `openAnnotationChat`
(lines 1463-1508) and `closeChatPanel` (lines 1510-1527).  Only vertical
extents matter to the source's visibility arithmetic, so overlay and
viewport rectangles are modelled by their top/bottom edges.  The source
sorts with a stable sort under the comparator on scores; since a stable
sort by a key is extensionally unique, `List.insertionSort` with the
descending-score relation is the same function. -/

structure Rect where
  top : ℚ
  bottom : ℚ
  deriving DecidableEq

structure VisAnnot where
  id : String
  overlayRect : Option Rect
  deriving DecidableEq

structure VisState where
  annots : List VisAnnot
  containerTop : ℚ
  containerBottom : ℚ
  isSidebarOpen : Bool
  chatPanelHidden : Bool
  currentAnnotId : Option String
  autoOpenedAnnotId : Option String
  visibleAnnotIds : List String
  maxVisibleAnnots : ℕ
  deriving DecidableEq

structure Scored where
  id : String
  score : ℚ
  distanceFromCenter : ℚ
  deriving DecidableEq

def scoreOfRect (r : Rect) (viewportTop viewportBottom : ℚ) : ℚ :=
  let viewportCenter := (viewportTop + viewportBottom) / 2
  let overlayCenter := (r.top + r.bottom) / 2
  let distanceFromCenter := |overlayCenter - viewportCenter|
  let visibleTop := max r.top viewportTop
  let visibleBottom := min r.bottom viewportBottom
  let visibleHeight := max 0 (visibleBottom - visibleTop)
  let visFrac := visibleHeight / (r.bottom - r.top)
  visFrac * 1000 - distanceFromCenter

def distOfRect (r : Rect) (viewportTop viewportBottom : ℚ) : ℚ :=
  |(r.top + r.bottom) / 2 - (viewportTop + viewportBottom) / 2|

def annotScores (s : VisState) : List Scored :=
  s.annots.filterMap fun a =>
    match a.overlayRect with
    | none => none
    | some r =>
      if r.bottom > s.containerTop ∧ r.top < s.containerBottom then
        some ⟨a.id, scoreOfRect r s.containerTop s.containerBottom,
              distOfRect r s.containerTop s.containerBottom⟩
      else none

def scoreDesc (a b : Scored) : Prop := b.score ≤ a.score

instance : DecidableRel scoreDesc := fun a b => inferInstanceAs (Decidable (b.score ≤ a.score))

def sortedScores (s : VisState) : List Scored :=
  List.insertionSort scoreDesc (annotScores s)

def topAnnots (s : VisState) : List Scored :=
  (sortedScores s).take s.maxVisibleAnnots

def openAnnotationChat (s : VisState) (annId : String) : VisState :=
  if (s.annots.find? fun a => decide (a.id = annId)).isSome then
    { s with currentAnnotId := some annId, chatPanelHidden := false }
  else s

def autoOpenAnnotationChat (s : VisState) (annId : String) : VisState :=
  if (s.annots.find? fun a => decide (a.id = annId)).isNone then s
  else if s.currentAnnotId = some annId then s
  else openAnnotationChat { s with autoOpenedAnnotId := some annId } annId

def closeChatPanel (s : VisState) : VisState :=
  { s with chatPanelHidden := true, currentAnnotId := none, autoOpenedAnnotId := none }

/-- The threshold `viewportHeight * 0.25` of renderer.js line 1084. -/
def focusThreshold (s : VisState) : ℚ := (s.containerBottom - s.containerTop) * (25/100)

/-- The auto-focus policy of `updateVisibleAnnotations` (renderer.js lines
1081-1106), acting on the list of ranked scored overlays whose head is the
best-ranked one. -/
def autoFocusOn (s : VisState) : List Scored → VisState
  | [] => s
  | closest :: _ =>
    if s.isSidebarOpen = true ∧ closest.distanceFromCenter < focusThreshold s then
      if s.currentAnnotId ≠ some closest.id then openAnnotationChat s closest.id else s
    else if s.isSidebarOpen = false ∧ s.chatPanelHidden = true then
      if closest.distanceFromCenter < focusThreshold s * (8/10) then
        autoOpenAnnotationChat s closest.id
      else s
    else if s.isSidebarOpen = false ∧ s.autoOpenedAnnotId ≠ none ∧
            s.currentAnnotId ≠ some closest.id then
      if closest.distanceFromCenter < focusThreshold s then
        autoOpenAnnotationChat s closest.id
      else s
    else s

def autoFocusStep (s : VisState) : VisState := autoFocusOn s (topAnnots s)

/-- The auto-close check of `updateVisibleAnnotations` (renderer.js lines
1108-1115): the scored list comes from the state observed at the start of
the pass, the focused identifier from the state after the auto-focus
step. -/
def autoCloseOn (s s1 : VisState) : Option String → VisState
  | none => s1
  | some cid =>
    if ((annotScores s).find? fun e => decide (e.id = cid)).isNone then
      closeChatPanel s1
    else s1

def autoCloseStep (s s1 : VisState) : VisState := autoCloseOn s s1 s1.currentAnnotId

def updateVisibleAnnotations (s : VisState) : VisState :=
  let newVisibleIds := (topAnnots s).map Scored.id
  let s2 := autoCloseStep s (autoFocusStep s)
  if List.insertionSort (· ≤ ·) s2.visibleAnnotIds =
       List.insertionSort (· ≤ ·) newVisibleIds then
    s2
  else
    { s2 with visibleAnnotIds := newVisibleIds }

/-! ## Message mutation flows

From renderer.js `window.editMessage` (lines 1708-1763, save-button
handler) and `window.deleteMessage` (lines 1765-1783).  The HTTP call is
modelled by its outcome; `apiCalls` counts how many requests the flow
issues.  `newContent` stands for the already-trimmed textarea value
(`textarea.value.trim()` in the source), so the empty-content guard
compares it with the empty string directly. -/

inductive ApiOutcome where
  | ok : ApiOutcome
  | err (msg : String) : ApiOutcome
  deriving DecidableEq

structure MutationResult where
  messages : List Message
  errorShown : Option String
  apiCalls : ℕ
  deriving DecidableEq

def updateFirstMessage : List Message → String → String → List Message
  | [], _, _ => []
  | m :: ms, mid, c =>
    if m.id = mid then { m with content := c } :: ms
    else m :: updateFirstMessage ms mid c

def editMessageSave (messages : List Message) (messageId newContent : String)
    (api : ApiOutcome) : MutationResult :=
  if (messages.find? fun m => decide (m.id = messageId)).isNone then
    ⟨messages, none, 0⟩
  else if newContent = "" then
    ⟨messages, none, 0⟩
  else
    match api with
    | .ok => ⟨updateFirstMessage messages messageId newContent, none, 1⟩
    | .err e => ⟨messages, some ("Failed to edit message: " ++ e), 1⟩

def deleteMessage (messages : List Message) (messageId : String)
    (api : ApiOutcome) : MutationResult :=
  match api with
  | .ok => ⟨messages.filter fun m => decide (m.id ≠ messageId), none, 1⟩
  | .err e => ⟨messages, some ("Failed to delete message: " ++ e), 1⟩

/-! ## Claim theorems -/

/-- C1: the screen-to-stored conversion performed by region capture
(subtract the page origin, divide by the zoom level, divide by the render
scale) composed with the stored-to-screen conversion performed by the
overlay renderer (multiply by the render scale, with the container zoom
transform supplying the zoom factor and the page origin) recovers the
original screen box, for every zoom in [1/4, 3] and every positive render
scale.  Over the rationals the recovery is exact, hence in particular
within floating-point tolerance. -/
theorem C1_coordinate_round_trip (b : ScreenBox) (pageLeft pageTop zoom renderScale : ℚ)
    (hz1 : 1/4 ≤ zoom) (hz2 : zoom ≤ 3) (hr : 0 < renderScale) :
    renderOverlayScreenBox (captureBoxFromScreen b pageLeft pageTop zoom renderScale)
      pageLeft pageTop zoom renderScale = b := by
  have hz0 : zoom ≠ 0 := ne_of_gt (lt_of_lt_of_le (by norm_num) hz1)
  have hr0 : renderScale ≠ 0 := ne_of_gt hr
  cases b with
  | mk l t w h =>
    simp only [captureBoxFromScreen, renderOverlayScreenBox, ScreenBox.mk.injEq]
    refine ⟨?_, ?_, ?_, ?_⟩ <;>
      · field_simp
        ring

/-- Witness for C1 at a concrete input: screen box (10, 20, 30, 40), page
origin (5, 6), zoom 1, render scale 2. -/
theorem C1_coordinate_round_trip_witness :
    (1 : ℚ)/4 ≤ 1 ∧ (1 : ℚ) ≤ 3 ∧ (0 : ℚ) < 2 ∧
    renderOverlayScreenBox (captureBoxFromScreen ⟨10, 20, 30, 40⟩ 5 6 1 2) 5 6 1 2 =
      ⟨10, 20, 30, 40⟩ :=
  ⟨by norm_num, by norm_num, by norm_num,
    C1_coordinate_round_trip ⟨10, 20, 30, 40⟩ 5 6 1 2 (by norm_num) (by norm_num)
      (by norm_num)⟩

/-- C2: `applyZoomAtPoint` sets each new scroll offset to
((oldScroll + anchorOffset) / oldZoom) * newZoom - anchorOffset on both
axes, and consequently the content point previously under the anchor,
(scroll + anchor) / zoom, is unchanged by the operation — exactly over the
rationals, hence within 1px. -/
theorem C2_zoom_about_point (scroll : ScrollPos) (mouseX mouseY oldZoom newZoom : ℚ)
    (ho1 : 1/4 ≤ oldZoom) (ho2 : oldZoom ≤ 3) (hn1 : 1/4 ≤ newZoom) (hn2 : newZoom ≤ 3) :
    ((applyZoomAtPoint scroll mouseX mouseY oldZoom newZoom).1.left =
        (scroll.left + mouseX) / oldZoom * newZoom - mouseX ∧
      (applyZoomAtPoint scroll mouseX mouseY oldZoom newZoom).1.top =
        (scroll.top + mouseY) / oldZoom * newZoom - mouseY) ∧
    (((applyZoomAtPoint scroll mouseX mouseY oldZoom newZoom).1.left + mouseX) / newZoom =
        (scroll.left + mouseX) / oldZoom ∧
      ((applyZoomAtPoint scroll mouseX mouseY oldZoom newZoom).1.top + mouseY) / newZoom =
        (scroll.top + mouseY) / oldZoom) := by
  have hn0 : newZoom ≠ 0 := ne_of_gt (lt_of_lt_of_le (by norm_num) hn1)
  have ho0 : oldZoom ≠ 0 := ne_of_gt (lt_of_lt_of_le (by norm_num) ho1)
  refine ⟨⟨rfl, rfl⟩, ?_, ?_⟩ <;>
    · simp only [applyZoomAtPoint]
      field_simp
      ring

/-- Witness for C2 at a concrete input: scroll (100, 200), anchor (50, 60),
old zoom 1, new zoom 2. -/
theorem C2_zoom_about_point_witness :
    (1 : ℚ)/4 ≤ 1 ∧ (1 : ℚ) ≤ 3 ∧ (1 : ℚ)/4 ≤ 2 ∧ (2 : ℚ) ≤ 3 ∧
    ((applyZoomAtPoint ⟨100, 200⟩ 50 60 1 2).1.left + 50) / 2 = ((100 : ℚ) + 50) / 1 :=
  ⟨by norm_num, by norm_num, by norm_num, by norm_num,
    (C2_zoom_about_point ⟨100, 200⟩ 50 60 1 2 (by norm_num) (by norm_num) (by norm_num)
      (by norm_num)).2.1⟩

/-- C7: on a scroll event the reported current page equals the
specification reading: the page immediately preceding the first page, in
document order, whose vertical midpoint exceeds the viewport's vertical
center, defaulting to page 1 when no page qualifies.  The zoom level does
not enter the computation: the scan works on layout offsets. -/
theorem C7_current_page_on_scroll (pages : List PageLayout) (scrollTop containerHeight : ℚ) :
    currentPageOnScroll pages scrollTop containerHeight =
      specCurrentPage pages (scrollTop + containerHeight / 2) := by
  unfold currentPageOnScroll specCurrentPage
  exact scanCurrentPage_eq_spec pages _ 1

/-- Counterexample for C8: `fitToWidth` performs no clamping, so with a
container client width of 4040 CSS pixels and a page render width of 1000
the zoom level becomes 4, outside [1/4, 3], refuting the claim that every
zoom operation keeps the level in range. -/
theorem C8_counterexample : fitToWidth 4040 1000 = 4 ∧ ¬ fitToWidth 4040 1000 ≤ 3 := by
  constructor <;> norm_num [fitToWidth]

/-- C8 as amended: the step operations `zoomIn`/`zoomOut`, the wheel zoom
and the reset keep the zoom level within [1/4, 3] whenever it was in that
range; `fitToWidth` is excluded, being unclamped. -/
theorem C8_zoom_clamped (z deltaY : ℚ) (h1 : 1/4 ≤ z) (h2 : z ≤ 3) :
    (1/4 ≤ zoomIn z ∧ zoomIn z ≤ 3) ∧
    (1/4 ≤ zoomOut z ∧ zoomOut z ≤ 3) ∧
    (1/4 ≤ handleWheelZoom z deltaY ∧ handleWheelZoom z deltaY ≤ 3) ∧
    (1/4 ≤ resetZoom ∧ resetZoom ≤ 3) := by
  unfold zoomIn zoomOut handleWheelZoom resetZoom
  exact ⟨⟨le_min (by linarith) (by norm_num), min_le_right _ _⟩,
    ⟨le_max_right _ _, max_le (by linarith) (by norm_num)⟩,
    ⟨le_max_left _ _, max_le (by norm_num) (min_le_left _ _)⟩,
    by norm_num, by norm_num⟩

/-- Witness for the amended C8 at zoom 1 and wheel delta 1. -/
theorem C8_zoom_clamped_witness :
    (1 : ℚ)/4 ≤ 1 ∧ (1 : ℚ) ≤ 3 ∧ (1/4 ≤ zoomIn 1 ∧ zoomIn 1 ≤ 3) :=
  ⟨by norm_num, by norm_num, (C8_zoom_clamped 1 1 (by norm_num) (by norm_num)).1⟩

/-! Path lemmas for `handleSelectionEnd`, shared by the selection-capture
claims. -/

def storedBoxOfDrag (x1 y1 x2 y2 : ℚ) (page : PageRect) (zoom renderScale : ℚ) :
    BoundingBox :=
  captureBoxFromScreen ⟨min x1 x2, min y1 y2, |x2 - x1|, |y2 - y1|⟩
    page.left page.top zoom renderScale

theorem handleSelectionEnd_discard (s : SelState) (pages : List PageRect)
    (newId now imageData : String) (x1 y1 x2 y2 : ℚ)
    (hsel : s.isSelecting = true)
    (hst : s.selectionStart = some (x1, y1))
    (hen : s.selectionEnd = some (x2, y2))
    (hdisc : (|x2 - x1| < 20 ∨ |y2 - y1| < 20) ∨
      findTargetPage pages (min x1 x2 + |x2 - x1| / 2) (min y1 y2 + |y2 - y1| / 2) = none) :
    handleSelectionEnd s pages newId now imageData =
      { s with isSelecting := false, selectionBoxVisible := false } := by
  simp only [handleSelectionEnd, hsel, hst, hen, Bool.not_true, Bool.false_eq_true,
    if_false]
  rcases hdisc with hsmall | hnone
  · rw [if_pos hsmall]
  · by_cases hsmall : |x2 - x1| < 20 ∨ |y2 - y1| < 20
    · rw [if_pos hsmall]
    · rw [if_neg hsmall, hnone]

theorem handleSelectionEnd_success (s : SelState) (pages : List PageRect)
    (newId now imageData : String) (x1 y1 x2 y2 : ℚ) (page : PageRect)
    (hsel : s.isSelecting = true)
    (hst : s.selectionStart = some (x1, y1))
    (hen : s.selectionEnd = some (x2, y2))
    (h20w : 20 ≤ |x2 - x1|) (h20h : 20 ≤ |y2 - y1|)
    (hfind : findTargetPage pages (min x1 x2 + |x2 - x1| / 2) (min y1 y2 + |y2 - y1| / 2) =
      some page) :
    handleSelectionEnd s pages newId now imageData =
      { s with
          isSelecting := false
          annots := s.annots ++ [(newId,
            { id := newId
              page_number := page.pageNum
              bounding_box := storedBoxOfDrag x1 y1 x2 y2 page s.zoomLevel s.renderScale
              image_base64 := imageData
              messages := []
              created_at := now })]
          currentAnnotId := some newId
          chatPanelHidden := false
          isScreenshotMode := false
          selectionOverlayHidden := true
          selectionBoxVisible := false
          selectionStart := none
          selectionEnd := none } := by
  have hsmall : ¬ (|x2 - x1| < 20 ∨ |y2 - y1| < 20) := by
    push_neg
    exact ⟨h20w, h20h⟩
  simp only [handleSelectionEnd, hsel, hst, hen, Bool.not_true, Bool.false_eq_true,
    if_false]
  rw [if_neg hsmall, hfind]
  rfl

/-! Concrete fixtures for the selection-capture claims. -/

def wId : String := "ann-w"

def wNow : String := "2026-01-01T00:00:00Z"

def wImg : String := "imgdata"

def pageOne : PageRect := ⟨1, 0, 0, 1000, 1400⟩

def pagesOne : List PageRect := [pageOne]

def selBase : SelState :=
  { isSelecting := true
    isScreenshotMode := true
    selectionOverlayHidden := false
    selectionBoxVisible := true
    selectionStart := some (100, 100)
    selectionEnd := some (119, 119)
    zoomLevel := 1
    renderScale := 2
    annots := []
    currentAnnotId := none
    chatPanelHidden := true }

def sDrag20 : SelState := { selBase with selectionEnd := some (120, 120) }

def sC3 : SelState := { selBase with selectionEnd := some (160, 160) }

theorem findTargetPage_pagesOne (cx cy : ℚ) (hx1 : 0 ≤ cx) (hx2 : cx < 1000)
    (hy1 : 0 ≤ cy) (hy2 : cy < 1400) :
    findTargetPage pagesOne cx cy = some pageOne := by
  unfold findTargetPage pagesOne
  refine List.find?_cons_of_pos _ ?_
  simp only [decide_eq_true_eq, pageOne, ge_iff_le]
  exact ⟨hy1, hy2, hx1, hx2⟩

/-- C4: a finalized region-capture drag with extents below 20x20 screen
pixels creates no annotation record, while a drag of at least 20x20 whose
center point lies over a page element creates exactly one new annotation
carrying the generated identifier, an empty message list and the creation
timestamp. -/
theorem C4_minimum_size_threshold (s : SelState) (pages : List PageRect)
    (newId now imageData : String) (x1 y1 x2 y2 : ℚ)
    (hsel : s.isSelecting = true)
    (hst : s.selectionStart = some (x1, y1))
    (hen : s.selectionEnd = some (x2, y2)) :
    ((|x2 - x1| < 20 ∨ |y2 - y1| < 20 →
      (handleSelectionEnd s pages newId now imageData).annots = s.annots)) ∧
    (∀ page : PageRect, 20 ≤ |x2 - x1| → 20 ≤ |y2 - y1| →
      findTargetPage pages (min x1 x2 + |x2 - x1| / 2) (min y1 y2 + |y2 - y1| / 2) =
        some page →
      (handleSelectionEnd s pages newId now imageData).annots =
        s.annots ++ [(newId,
          { id := newId
            page_number := page.pageNum
            bounding_box := storedBoxOfDrag x1 y1 x2 y2 page s.zoomLevel s.renderScale
            image_base64 := imageData
            messages := []
            created_at := now })]) := by
  constructor
  · intro hsmall
    rw [handleSelectionEnd_discard s pages newId now imageData x1 y1 x2 y2 hsel hst hen
      (Or.inl hsmall)]
  · intro page h20w h20h hfind
    rw [handleSelectionEnd_success s pages newId now imageData x1 y1 x2 y2 page hsel hst
      hen h20w h20h hfind]

/-- Witness for C4: a 19x19 drag (from (100,100) to (119,119)) leaves the
store empty; a 20x20 drag (to (120,120)) centered over the page appends
exactly one annotation with the given identifier, no messages and the
given timestamp. -/
theorem C4_minimum_size_threshold_witness :
    (handleSelectionEnd selBase pagesOne wId wNow wImg).annots = selBase.annots ∧
    (handleSelectionEnd sDrag20 pagesOne wId wNow wImg).annots =
      sDrag20.annots ++ [(wId,
        { id := wId
          page_number := pageOne.pageNum
          bounding_box := storedBoxOfDrag 100 100 120 120 pageOne
            sDrag20.zoomLevel sDrag20.renderScale
          image_base64 := wImg
          messages := []
          created_at := wNow })] := by
  constructor
  · exact (C4_minimum_size_threshold selBase pagesOne wId wNow wImg 100 100 119 119
      rfl rfl rfl).1 (by norm_num)
  · exact (C4_minimum_size_threshold sDrag20 pagesOne wId wNow wImg 100 100 120 120
      rfl rfl rfl).2 pageOne (by norm_num) (by norm_num)
      (findTargetPage_pagesOne _ _ (by norm_num) (by norm_num) (by norm_num) (by norm_num))

/-- C10: a region-capture drag that is discarded, because its extents are
below the 20x20 threshold or its center lies over no page element, leaves
the annotation store unchanged and keeps screenshot mode armed (mode flag
true, selection overlay not hidden); only a successful capture disables
screenshot mode. -/
theorem C10_discard_keeps_mode (s : SelState) (pages : List PageRect)
    (newId now imageData : String) (x1 y1 x2 y2 : ℚ)
    (hsel : s.isSelecting = true)
    (hst : s.selectionStart = some (x1, y1))
    (hen : s.selectionEnd = some (x2, y2))
    (hmode : s.isScreenshotMode = true)
    (hov : s.selectionOverlayHidden = false) :
    (((|x2 - x1| < 20 ∨ |y2 - y1| < 20) ∨
        findTargetPage pages (min x1 x2 + |x2 - x1| / 2) (min y1 y2 + |y2 - y1| / 2) =
          none) →
      (handleSelectionEnd s pages newId now imageData).annots = s.annots ∧
      (handleSelectionEnd s pages newId now imageData).isScreenshotMode = true ∧
      (handleSelectionEnd s pages newId now imageData).selectionOverlayHidden = false) ∧
    (∀ page : PageRect, 20 ≤ |x2 - x1| → 20 ≤ |y2 - y1| →
      findTargetPage pages (min x1 x2 + |x2 - x1| / 2) (min y1 y2 + |y2 - y1| / 2) =
        some page →
      (handleSelectionEnd s pages newId now imageData).isScreenshotMode = false) := by
  constructor
  · intro hdisc
    rw [handleSelectionEnd_discard s pages newId now imageData x1 y1 x2 y2 hsel hst hen
      hdisc]
    exact ⟨rfl, hmode, hov⟩
  · intro page h20w h20h hfind
    rw [handleSelectionEnd_success s pages newId now imageData x1 y1 x2 y2 page hsel hst
      hen h20w h20h hfind]

/-- Witness for C10: the 19x19 drag leaves the store and the armed
screenshot mode untouched; the successful 20x20 capture disables it. -/
theorem C10_discard_keeps_mode_witness :
    ((handleSelectionEnd selBase pagesOne wId wNow wImg).annots = selBase.annots ∧
      (handleSelectionEnd selBase pagesOne wId wNow wImg).isScreenshotMode = true ∧
      (handleSelectionEnd selBase pagesOne wId wNow wImg).selectionOverlayHidden = false) ∧
    (handleSelectionEnd sDrag20 pagesOne wId wNow wImg).isScreenshotMode = false := by
  constructor
  · exact (C10_discard_keeps_mode selBase pagesOne wId wNow wImg 100 100 119 119
      rfl rfl rfl rfl rfl).1 (Or.inl (by norm_num))
  · exact (C10_discard_keeps_mode sDrag20 pagesOne wId wNow wImg 100 100 120 120
      rfl rfl rfl rfl rfl).2 pageOne (by norm_num) (by norm_num)
      (findTargetPage_pagesOne _ _ (by norm_num) (by norm_num) (by norm_num) (by norm_num))

/-- Counterexample for C3: a 60x60 drag from (100,100) to (160,160), lying
entirely inside the page element (0,0)-(1000,1400), at zoom 1 and render
scale 2, stores the bounding box (50, 50, 30, 30).  The stored values are
not fractions within [0,1]: x + width = 80 > 1.  The store is in
render-scale-independent page coordinates, not normalized-page space. -/
theorem C3_counterexample :
    (pageOne.left ≤ 100 ∧ (160 : ℚ) ≤ pageOne.right ∧
      pageOne.top ≤ 100 ∧ (160 : ℚ) ≤ pageOne.bottom) ∧
    (handleSelectionEnd sC3 pagesOne wId wNow wImg).annots =
      [(wId,
        { id := wId
          page_number := 1
          bounding_box := { x := 50, y := 50, width := 30, height := 30 }
          image_base64 := wImg
          messages := []
          created_at := wNow })] ∧
    ¬ ((50 : ℚ) + 30 ≤ 1) := by
  refine ⟨⟨by norm_num [pageOne], by norm_num [pageOne], by norm_num [pageOne],
    by norm_num [pageOne]⟩, ?_, by norm_num⟩
  rw [handleSelectionEnd_success sC3 pagesOne wId wNow wImg 100 100 160 160 pageOne
    rfl rfl rfl (by norm_num) (by norm_num)
    (findTargetPage_pagesOne _ _ (by norm_num) (by norm_num) (by norm_num) (by norm_num))]
  norm_num [sC3, selBase, storedBoxOfDrag, captureBoxFromScreen, pageOne]

/-- C3 as amended: the bounding box stored by region capture is expressed
in render-scale-independent page coordinates — the drag rectangle's offset
from the page's screen origin divided by the zoom level and then by the
render scale — not in [0,1]-normalized page space.  When the drag
rectangle lies inside the page element, all four stored values are
non-negative and the box stays within the page's extent measured in the
same coordinates: x + width at most (pageRight - pageLeft)/zoom/renderScale
and y + height at most (pageBottom - pageTop)/zoom/renderScale. -/
theorem C3_stored_box_page_space (s : SelState) (pages : List PageRect)
    (newId now imageData : String) (x1 y1 x2 y2 : ℚ) (page : PageRect)
    (hsel : s.isSelecting = true)
    (hst : s.selectionStart = some (x1, y1))
    (hen : s.selectionEnd = some (x2, y2))
    (h20w : 20 ≤ |x2 - x1|) (h20h : 20 ≤ |y2 - y1|)
    (hfind : findTargetPage pages (min x1 x2 + |x2 - x1| / 2) (min y1 y2 + |y2 - y1| / 2) =
      some page)
    (hz : 0 < s.zoomLevel) (hr : 0 < s.renderScale)
    (hleft : page.left ≤ min x1 x2) (hright : max x1 x2 ≤ page.right)
    (htop : page.top ≤ min y1 y2) (hbot : max y1 y2 ≤ page.bottom) :
    (handleSelectionEnd s pages newId now imageData).annots =
      s.annots ++ [(newId,
        { id := newId
          page_number := page.pageNum
          bounding_box := storedBoxOfDrag x1 y1 x2 y2 page s.zoomLevel s.renderScale
          image_base64 := imageData
          messages := []
          created_at := now })] ∧
    0 ≤ (storedBoxOfDrag x1 y1 x2 y2 page s.zoomLevel s.renderScale).x ∧
    0 ≤ (storedBoxOfDrag x1 y1 x2 y2 page s.zoomLevel s.renderScale).y ∧
    0 ≤ (storedBoxOfDrag x1 y1 x2 y2 page s.zoomLevel s.renderScale).width ∧
    0 ≤ (storedBoxOfDrag x1 y1 x2 y2 page s.zoomLevel s.renderScale).height ∧
    (storedBoxOfDrag x1 y1 x2 y2 page s.zoomLevel s.renderScale).x +
        (storedBoxOfDrag x1 y1 x2 y2 page s.zoomLevel s.renderScale).width ≤
      ((page.right - page.left) / s.zoomLevel) / s.renderScale ∧
    (storedBoxOfDrag x1 y1 x2 y2 page s.zoomLevel s.renderScale).y +
        (storedBoxOfDrag x1 y1 x2 y2 page s.zoomLevel s.renderScale).height ≤
      ((page.bottom - page.top) / s.zoomLevel) / s.renderScale := by
  have hkeyx : min x1 x2 + |x2 - x1| = max x1 x2 := by
    rcases le_total x1 x2 with h | h
    · rw [min_eq_left h, max_eq_right h, abs_of_nonneg (by linarith)]
      ring
    · rw [min_eq_right h, max_eq_left h, abs_of_nonpos (by linarith)]
      ring
  have hkeyy : min y1 y2 + |y2 - y1| = max y1 y2 := by
    rcases le_total y1 y2 with h | h
    · rw [min_eq_left h, max_eq_right h, abs_of_nonneg (by linarith)]
      ring
    · rw [min_eq_right h, max_eq_left h, abs_of_nonpos (by linarith)]
      ring
  have hbox : storedBoxOfDrag x1 y1 x2 y2 page s.zoomLevel s.renderScale =
      ⟨((min x1 x2 - page.left) / s.zoomLevel) / s.renderScale,
       ((min y1 y2 - page.top) / s.zoomLevel) / s.renderScale,
       ((|x2 - x1|) / s.zoomLevel) / s.renderScale,
       ((|y2 - y1|) / s.zoomLevel) / s.renderScale⟩ := rfl
  refine ⟨by rw [handleSelectionEnd_success s pages newId now imageData x1 y1 x2 y2 page
    hsel hst hen h20w h20h hfind], ?_, ?_, ?_, ?_, ?_, ?_⟩
  · rw [hbox]
    exact div_nonneg (div_nonneg (sub_nonneg.mpr hleft) hz.le) hr.le
  · rw [hbox]
    exact div_nonneg (div_nonneg (sub_nonneg.mpr htop) hz.le) hr.le
  · rw [hbox]
    exact div_nonneg (div_nonneg (abs_nonneg _) hz.le) hr.le
  · rw [hbox]
    exact div_nonneg (div_nonneg (abs_nonneg _) hz.le) hr.le
  · rw [hbox]
    show ((min x1 x2 - page.left) / s.zoomLevel) / s.renderScale +
        ((|x2 - x1|) / s.zoomLevel) / s.renderScale ≤ _
    rw [div_add_div_same, div_add_div_same]
    refine (div_le_div_right hr).mpr ((div_le_div_right hz).mpr ?_)
    linarith [hkeyx, hright]
  · rw [hbox]
    show ((min y1 y2 - page.top) / s.zoomLevel) / s.renderScale +
        ((|y2 - y1|) / s.zoomLevel) / s.renderScale ≤ _
    rw [div_add_div_same, div_add_div_same]
    refine (div_le_div_right hr).mpr ((div_le_div_right hz).mpr ?_)
    linarith [hkeyy, hbot]

/-- Witness for the amended C3 at the concrete 60x60 drag inside the page:
the stored x plus width stays within the page extent divided by zoom and
render scale, and the stored x is non-negative. -/
theorem C3_stored_box_page_space_witness :
    0 ≤ (storedBoxOfDrag 100 100 160 160 pageOne sC3.zoomLevel sC3.renderScale).x ∧
    (storedBoxOfDrag 100 100 160 160 pageOne sC3.zoomLevel sC3.renderScale).x +
        (storedBoxOfDrag 100 100 160 160 pageOne sC3.zoomLevel sC3.renderScale).width ≤
      ((pageOne.right - pageOne.left) / sC3.zoomLevel) / sC3.renderScale := by
  have h := C3_stored_box_page_space sC3 pagesOne wId wNow wImg 100 100 160 160 pageOne
    rfl rfl rfl (by norm_num) (by norm_num)
    (findTargetPage_pagesOne _ _ (by norm_num) (by norm_num) (by norm_num) (by norm_num))
    (by norm_num [sC3, selBase]) (by norm_num [sC3, selBase])
    (by norm_num [pageOne]) (by norm_num [pageOne]) (by norm_num [pageOne])
    (by norm_num [pageOne])
  exact ⟨h.2.1, h.2.2.2.2.2.1⟩

def m1 : Message := { id := "m1", role := "user", content := "hello", timestamp := "t1" }

def msgs1 : List Message := [m1]

def mid1 : String := "m1"

def newC9 : String := "hi"

def errC9 : String := "boom"

/-- C9: editing or deleting a message routes through the persistence
request and mutates the local thread only when it succeeds.  On failure
the message list is left exactly unchanged and an error is reported; each
flow issues exactly one request, so a failed operation is not retried.  On
success the edit rewrites only the found message's content and the delete
removes exactly the matching message. -/
theorem C9_mutation_error_handling (messages : List Message)
    (messageId newContent e : String)
    (hfound : (messages.find? fun m => decide (m.id = messageId)).isNone = false)
    (hne : ¬ newContent = "") :
    ((editMessageSave messages messageId newContent (.err e)).messages = messages ∧
      (editMessageSave messages messageId newContent (.err e)).errorShown =
        some ("Failed to edit message: " ++ e) ∧
      (editMessageSave messages messageId newContent (.err e)).apiCalls = 1) ∧
    ((editMessageSave messages messageId newContent .ok).messages =
        updateFirstMessage messages messageId newContent ∧
      (editMessageSave messages messageId newContent .ok).errorShown = none ∧
      (editMessageSave messages messageId newContent .ok).apiCalls = 1) ∧
    ((deleteMessage messages messageId (.err e)).messages = messages ∧
      (deleteMessage messages messageId (.err e)).errorShown =
        some ("Failed to delete message: " ++ e) ∧
      (deleteMessage messages messageId (.err e)).apiCalls = 1) ∧
    ((deleteMessage messages messageId .ok).messages =
        messages.filter fun m => decide (m.id ≠ messageId)) := by
  simp [editMessageSave, deleteMessage, hfound, hne]

/-- Witness for C9 on a one-message thread: a failing edit and a failing
delete both leave the thread unchanged. -/
theorem C9_mutation_error_handling_witness :
    (editMessageSave msgs1 mid1 newC9 (.err errC9)).messages = msgs1 ∧
    (deleteMessage msgs1 mid1 (.err errC9)).messages = msgs1 := by
  have h := C9_mutation_error_handling msgs1 mid1 newC9 errC9 (by decide) (by decide)
  exact ⟨h.1.1, h.2.2.1.1⟩

/-! Helper lemmas for the visibility engine. -/

instance : IsTotal Scored scoreDesc := ⟨fun a b => le_total b.score a.score⟩

instance : IsTrans Scored scoreDesc := ⟨fun _ _ _ hab hbc => le_trans hbc hab⟩

theorem mem_annotScores (s : VisState) (e : Scored) :
    e ∈ annotScores s ↔
      ∃ a ∈ s.annots, ∃ r, a.overlayRect = some r ∧
        (r.bottom > s.containerTop ∧ r.top < s.containerBottom) ∧
        e = ⟨a.id, scoreOfRect r s.containerTop s.containerBottom,
             distOfRect r s.containerTop s.containerBottom⟩ := by
  unfold annotScores
  rw [List.mem_filterMap]
  constructor
  · rintro ⟨a, ha, hfa⟩
    cases hr : a.overlayRect with
    | none => simp [hr] at hfa
    | some r =>
      simp only [hr] at hfa
      by_cases hiv : r.bottom > s.containerTop ∧ r.top < s.containerBottom
      · rw [if_pos hiv] at hfa
        exact ⟨a, ha, r, hr, hiv, (Option.some_inj.mp hfa).symm⟩
      · rw [if_neg hiv] at hfa
        simp at hfa
  · rintro ⟨a, ha, r, hr, hiv, he⟩
    refine ⟨a, ha, ?_⟩
    simp only [hr]
    rw [if_pos hiv, he]

theorem topAnnots_mem_scores (s : VisState) (e : Scored) (he : e ∈ topAnnots s) :
    e ∈ annotScores s :=
  (List.perm_insertionSort scoreDesc (annotScores s)).subset (List.mem_of_mem_take he)

theorem openAnnotationChat_found (s : VisState) (annId : String)
    (hex : ∃ a ∈ s.annots, a.id = annId) :
    openAnnotationChat s annId =
      { s with currentAnnotId := some annId, chatPanelHidden := false } := by
  unfold openAnnotationChat
  rw [if_pos]
  rw [List.find?_isSome]
  obtain ⟨a, ha, hid⟩ := hex
  exact ⟨a, ha, by simp [hid]⟩

theorem autoOpenAnnotationChat_found (s : VisState) (annId : String)
    (hex : ∃ a ∈ s.annots, a.id = annId)
    (hne : s.currentAnnotId ≠ some annId) :
    autoOpenAnnotationChat s annId =
      { s with autoOpenedAnnotId := some annId, currentAnnotId := some annId,
               chatPanelHidden := false } := by
  unfold autoOpenAnnotationChat
  have hfind : ((s.annots.find? fun a => decide (a.id = annId)).isNone) = false := by
    obtain ⟨a, ha, hid⟩ := hex
    have : (s.annots.find? fun a => decide (a.id = annId)).isSome := by
      rw [List.find?_isSome]
      exact ⟨a, ha, by simp [hid]⟩
    simp only [Option.isNone_eq_false_iff]
    exact this
  rw [if_neg (by rw [hfind]; exact Bool.false_ne_true), if_neg hne]
  rw [openAnnotationChat_found]
  obtain ⟨a, ha, hid⟩ := hex
  exact ⟨a, ha, hid⟩

theorem openAnnotationChat_frame (s : VisState) (annId : String) :
    (openAnnotationChat s annId).visibleAnnotIds = s.visibleAnnotIds ∧
    (openAnnotationChat s annId).annots = s.annots ∧
    (openAnnotationChat s annId).autoOpenedAnnotId = s.autoOpenedAnnotId := by
  unfold openAnnotationChat
  split_ifs <;> exact ⟨rfl, rfl, rfl⟩

theorem autoOpenAnnotationChat_frame (s : VisState) (annId : String) :
    (autoOpenAnnotationChat s annId).visibleAnnotIds = s.visibleAnnotIds ∧
    (autoOpenAnnotationChat s annId).annots = s.annots := by
  unfold autoOpenAnnotationChat openAnnotationChat
  split_ifs <;> exact ⟨rfl, rfl⟩

theorem autoFocusStep_cases (s : VisState) :
    autoFocusStep s = s ∨
      ∃ c rest, topAnnots s = c :: rest ∧
        (autoFocusStep s = openAnnotationChat s c.id ∨
         autoFocusStep s = autoOpenAnnotationChat s c.id) := by
  cases h : topAnnots s with
  | nil =>
    left
    unfold autoFocusStep
    rw [h]
    rfl
  | cons c rest =>
    unfold autoFocusStep
    rw [h]
    simp only [autoFocusOn]
    by_cases h1 : s.isSidebarOpen = true ∧ c.distanceFromCenter < focusThreshold s
    · rw [if_pos h1]
      by_cases h1b : s.currentAnnotId ≠ some c.id
      · rw [if_pos h1b]
        exact Or.inr ⟨c, rest, rfl, Or.inl rfl⟩
      · rw [if_neg h1b]
        exact Or.inl rfl
    · rw [if_neg h1]
      by_cases h2 : s.isSidebarOpen = false ∧ s.chatPanelHidden = true
      · rw [if_pos h2]
        by_cases h2b : c.distanceFromCenter < focusThreshold s * (8/10)
        · rw [if_pos h2b]
          exact Or.inr ⟨c, rest, rfl, Or.inr rfl⟩
        · rw [if_neg h2b]
          exact Or.inl rfl
      · rw [if_neg h2]
        by_cases h3 : s.isSidebarOpen = false ∧ s.autoOpenedAnnotId ≠ none ∧
          s.currentAnnotId ≠ some c.id
        · rw [if_pos h3]
          by_cases h3b : c.distanceFromCenter < focusThreshold s
          · rw [if_pos h3b]
            exact Or.inr ⟨c, rest, rfl, Or.inr rfl⟩
          · rw [if_neg h3b]
            exact Or.inl rfl
        · rw [if_neg h3]
          exact Or.inl rfl

theorem autoFocusStep_visible (s : VisState) :
    (autoFocusStep s).visibleAnnotIds = s.visibleAnnotIds := by
  rcases autoFocusStep_cases s with h | ⟨c, rest, _, h | h⟩
  · rw [h]
  · rw [h]
    exact (openAnnotationChat_frame s c.id).1
  · rw [h]
    exact (autoOpenAnnotationChat_frame s c.id).1

theorem autoCloseStep_visible (s s1 : VisState) :
    (autoCloseStep s s1).visibleAnnotIds = s1.visibleAnnotIds := by
  unfold autoCloseStep
  cases s1.currentAnnotId with
  | none => rfl
  | some cid =>
    simp only [autoCloseOn]
    split_ifs <;> rfl

theorem updateVisibleAnnotations_panel_fields (s : VisState) :
    (updateVisibleAnnotations s).currentAnnotId =
        (autoCloseStep s (autoFocusStep s)).currentAnnotId ∧
      (updateVisibleAnnotations s).chatPanelHidden =
        (autoCloseStep s (autoFocusStep s)).chatPanelHidden ∧
      (updateVisibleAnnotations s).autoOpenedAnnotId =
        (autoCloseStep s (autoFocusStep s)).autoOpenedAnnotId := by
  simp only [updateVisibleAnnotations]
  split_ifs <;> exact ⟨rfl, rfl, rfl⟩

/-! Concrete fixtures for the visibility claims: a viewport spanning 0-800,
one overlay below the viewport (900-950) and one centered in it
(380-420). -/

def idA : String := "A"

def idB : String := "B"

def rA : Rect := ⟨900, 950⟩

def rB : Rect := ⟨380, 420⟩

def vsC6 : VisState :=
  { annots := [⟨idA, some rA⟩, ⟨idB, some rB⟩]
    containerTop := 0
    containerBottom := 800
    isSidebarOpen := false
    chatPanelHidden := false
    currentAnnotId := some idA
    autoOpenedAnnotId := some idA
    visibleAnnotIds := [idA]
    maxVisibleAnnots := 3 }

/-- C5: on a visibility pass, the scored entries are exactly the overlays
whose rects vertically intersect the viewport, each carrying the score
visibilityRatio * 1000 - distanceFromCenter; the ranking is sorted by
descending score and is a permutation of the scored entries; the visible
set is exactly the first maxVisibleAnnots entries of the ranking (3 in the
source, fewer when fewer qualify), every dropped entry scoring no higher
than any kept one; and the state's visible-id list after the pass is a
permutation of the ids of those top entries. -/
theorem C5_visibility_ranking (s : VisState) :
    (∀ e, e ∈ annotScores s ↔
      ∃ a ∈ s.annots, ∃ r, a.overlayRect = some r ∧
        (r.bottom > s.containerTop ∧ r.top < s.containerBottom) ∧
        e = ⟨a.id, scoreOfRect r s.containerTop s.containerBottom,
             distOfRect r s.containerTop s.containerBottom⟩) ∧
    List.Sorted scoreDesc (sortedScores s) ∧
    List.Perm (sortedScores s) (annotScores s) ∧
    topAnnots s = (sortedScores s).take s.maxVisibleAnnots ∧
    (topAnnots s).length = min s.maxVisibleAnnots (annotScores s).length ∧
    (∀ x ∈ topAnnots s, ∀ y ∈ (sortedScores s).drop s.maxVisibleAnnots,
      y.score ≤ x.score) ∧
    List.Perm (updateVisibleAnnotations s).visibleAnnotIds
      ((topAnnots s).map Scored.id) := by
  refine ⟨mem_annotScores s, List.sorted_insertionSort scoreDesc (annotScores s),
    List.perm_insertionSort scoreDesc (annotScores s), rfl, ?_, ?_, ?_⟩
  · rw [topAnnots, List.length_take, sortedScores,
      (List.perm_insertionSort scoreDesc (annotScores s)).length_eq]
  · intro x hx y hy
    have hp : (sortedScores s).Pairwise scoreDesc :=
      List.sorted_insertionSort scoreDesc (annotScores s)
    rw [← List.take_append_drop s.maxVisibleAnnots (sortedScores s)] at hp
    exact (List.pairwise_append.mp hp).2.2 x hx y hy
  · have hvis : (autoCloseStep s (autoFocusStep s)).visibleAnnotIds =
        s.visibleAnnotIds := by
      rw [autoCloseStep_visible, autoFocusStep_visible]
    simp only [updateVisibleAnnotations]
    split_ifs with hsort
    · rw [hvis] at hsort ⊢
      have h1 : List.Perm s.visibleAnnotIds
          (List.insertionSort (· ≤ ·) s.visibleAnnotIds) :=
        (List.perm_insertionSort _ _).symm
      rw [hsort] at h1
      exact h1.trans (List.perm_insertionSort _ _)
    · exact List.Perm.refl _

/-- Witness for C5: on the concrete two-overlay state, the centered
overlay (380-420) is a scored entry carrying exactly the formula score. -/
theorem C5_visibility_ranking_witness :
    (⟨idB, scoreOfRect rB vsC6.containerTop vsC6.containerBottom,
      distOfRect rB vsC6.containerTop vsC6.containerBottom⟩ : Scored) ∈
      annotScores vsC6 :=
  ((C5_visibility_ranking vsC6).1 _).mpr
    ⟨⟨idB, some rB⟩, by simp [vsC6], rB, rfl, by norm_num [rB, vsC6], rfl⟩

/-- Counterexample for C6: in the concrete state the focused annotation A
(auto-opened, overlay at 900-950) no longer intersects the 0-800 viewport,
yet the next visibility pass does not close the panel and clear the
focused identifier: the auto-focus branch runs first and reassigns focus
to the in-view annotation B, leaving the panel open on B. -/
theorem C6_counterexample :
    vsC6.currentAnnotId = some idA ∧
    vsC6.autoOpenedAnnotId = some idA ∧
    ¬(rA.bottom > vsC6.containerTop ∧ rA.top < vsC6.containerBottom) ∧
    (updateVisibleAnnotations vsC6).currentAnnotId = some idB ∧
    (updateVisibleAnnotations vsC6).chatPanelHidden = false ∧
    ¬ idB = idA := by
  have hscores : annotScores vsC6 =
      [(⟨idB, scoreOfRect rB 0 800, distOfRect rB 0 800⟩ : Scored)] := by
    simp only [annotScores, vsC6]
    norm_num [rA, rB, List.filterMap_cons, List.filterMap_nil]
  have htop : topAnnots vsC6 =
      [(⟨idB, scoreOfRect rB 0 800, distOfRect rB 0 800⟩ : Scored)] := by
    unfold topAnnots sortedScores
    rw [hscores]
    rfl
  have hex : ∃ a ∈ vsC6.annots, a.id = idB := ⟨⟨idB, some rB⟩, by simp [vsC6], rfl⟩
  have hne : vsC6.currentAnnotId ≠ some idB := by simp [vsC6, idA, idB]
  have hfocus : autoFocusStep vsC6 =
      { vsC6 with autoOpenedAnnotId := some idB, currentAnnotId := some idB,
                  chatPanelHidden := false } := by
    unfold autoFocusStep
    rw [htop]
    simp only [autoFocusOn]
    have hc1 : ¬(vsC6.isSidebarOpen = true ∧
        (⟨idB, scoreOfRect rB 0 800, distOfRect rB 0 800⟩ : Scored).distanceFromCenter <
          focusThreshold vsC6) := by
      simp [vsC6]
    have hc2 : ¬(vsC6.isSidebarOpen = false ∧ vsC6.chatPanelHidden = true) := by
      simp [vsC6]
    have hc3 : vsC6.isSidebarOpen = false ∧ vsC6.autoOpenedAnnotId ≠ none ∧
        vsC6.currentAnnotId ≠
          some (⟨idB, scoreOfRect rB 0 800, distOfRect rB 0 800⟩ : Scored).id := by
      refine ⟨rfl, by simp [vsC6], ?_⟩
      simp [vsC6, idA, idB]
    have hc3b : (⟨idB, scoreOfRect rB 0 800, distOfRect rB 0 800⟩ : Scored).distanceFromCenter <
        focusThreshold vsC6 := by
      norm_num [distOfRect, rB, focusThreshold, vsC6]
    rw [if_neg hc1, if_neg hc2, if_pos hc3, if_pos hc3b]
    show autoOpenAnnotationChat vsC6 idB = _
    rw [autoOpenAnnotationChat_found vsC6 idB hex hne]
  have hclose : autoCloseStep vsC6 (autoFocusStep vsC6) = autoFocusStep vsC6 := by
    rw [hfocus]
    unfold autoCloseStep
    show autoCloseOn vsC6 _ (some idB) = _
    simp only [autoCloseOn]
    have hniso : ¬(((annotScores vsC6).find? fun e => decide (e.id = idB)).isNone = true) := by
      rw [hscores]
      simp
    rw [if_neg hniso]
  have hf := updateVisibleAnnotations_panel_fields vsC6
  refine ⟨rfl, rfl, by norm_num [rA, vsC6], ?_, ?_, by simp [idA, idB]⟩
  · rw [hf.1, hclose, hfocus]
  · rw [hf.2.1, hclose, hfocus]

/-- C6 as amended: when the focused annotation's overlay no longer
intersects the viewport (or has no overlay at all), the next visibility
pass never leaves it focused: either the auto-focus policy first
reassigns focus to an in-view scored overlay and the panel stays open on
that one, or the pass closes the chat panel and clears both the focused
and the auto-opened identifier.  The unconditional close stated by the
claim holds only in the second case. -/
theorem C6_out_of_view_focus_cleared (s : VisState) (cid : String)
    (hcur : s.currentAnnotId = some cid)
    (hout : ∀ a ∈ s.annots, a.id = cid → ∀ r, a.overlayRect = some r →
      ¬(r.bottom > s.containerTop ∧ r.top < s.containerBottom)) :
    ((updateVisibleAnnotations s).currentAnnotId = none ∧
      (updateVisibleAnnotations s).chatPanelHidden = true ∧
      (updateVisibleAnnotations s).autoOpenedAnnotId = none) ∨
    (∃ e ∈ annotScores s, e.id ≠ cid ∧
      (updateVisibleAnnotations s).currentAnnotId = some e.id ∧
      (updateVisibleAnnotations s).chatPanelHidden = false) := by
  have hscoreid : ∀ e ∈ annotScores s, e.id ≠ cid := by
    intro e he hid
    obtain ⟨a, ha, r, hr, hiv, hee⟩ := (mem_annotScores s e).mp he
    exact hout a ha (by rw [hee] at hid; exact hid) r hr hiv
  have hfind_none : ((annotScores s).find? fun e => decide (e.id = cid)) = none := by
    rw [List.find?_eq_none]
    intro e he
    simp only [decide_eq_true_eq]
    exact hscoreid e he
  have hf := updateVisibleAnnotations_panel_fields s
  rcases autoFocusStep_cases s with h1 | ⟨c, rest, htop, hcase⟩
  · left
    have hstep : autoCloseStep s (autoFocusStep s) = closeChatPanel s := by
      rw [h1]
      unfold autoCloseStep
      rw [hcur]
      simp only [autoCloseOn]
      have hiso : (((annotScores s).find? fun e => decide (e.id = cid)).isNone = true) := by
        rw [hfind_none]
        rfl
      rw [if_pos hiso]
    rw [hf.1, hf.2.1, hf.2.2, hstep]
    exact ⟨rfl, rfl, rfl⟩
  · have hc : c ∈ annotScores s :=
      topAnnots_mem_scores s c (htop ▸ List.mem_cons_self c rest)
    have hcne : c.id ≠ cid := hscoreid c hc
    have hex : ∃ a ∈ s.annots, a.id = c.id := by
      obtain ⟨a, ha, r, hr, hiv, hee⟩ := (mem_annotScores s c).mp hc
      exact ⟨a, ha, by rw [hee]⟩
    have hs1 : (autoFocusStep s).currentAnnotId = some c.id ∧
        (autoFocusStep s).chatPanelHidden = false := by
      rcases hcase with h | h
      · rw [h, openAnnotationChat_found s c.id hex]
        exact ⟨rfl, rfl⟩
      · have hne : s.currentAnnotId ≠ some c.id := by
          rw [hcur]
          intro hh
          exact hcne (Option.some_inj.mp hh).symm
        rw [h, autoOpenAnnotationChat_found s c.id hex hne]
        exact ⟨rfl, rfl⟩
    have hfind_some : ((annotScores s).find? fun e => decide (e.id = c.id)).isNone = false := by
      have hsome : ((annotScores s).find? fun e => decide (e.id = c.id)).isSome := by
        rw [List.find?_isSome]
        exact ⟨c, hc, by simp⟩
      simp only [Option.isNone_eq_false_iff]
      exact hsome
    have hstep : autoCloseStep s (autoFocusStep s) = autoFocusStep s := by
      unfold autoCloseStep
      rw [hs1.1]
      simp only [autoCloseOn]
      have hniso : ¬(((annotScores s).find? fun e => decide (e.id = c.id)).isNone = true) := by
        rw [hfind_some]
        exact Bool.false_ne_true
      rw [if_neg hniso]
    right
    exact ⟨c, hc, hcne, by rw [hf.1, hstep, hs1.1], by rw [hf.2.1, hstep, hs1.2]⟩

/-- Witness for the amended C6 on the concrete state: after the pass the
out-of-view annotation A is no longer the focused one. -/
theorem C6_out_of_view_focus_cleared_witness :
    ¬ (updateVisibleAnnotations vsC6).currentAnnotId = some idA := by
  have h := C6_out_of_view_focus_cleared vsC6 idA rfl (by
    intro a ha hid r hr
    simp only [vsC6, List.mem_cons, List.not_mem_nil, or_false] at ha
    rcases ha with h | h
    · subst h
      have hra : r = rA := by
        have : some rA = some r := hr
        exact (Option.some_inj.mp this).symm
      subst hra
      norm_num [rA, vsC6]
    · subst h
      exact absurd hid (by simp [idA, idB]))
  rcases h with ⟨h1, _, _⟩ | ⟨e, _, hne, hcur, _⟩
  · rw [h1]
    simp
  · rw [hcur]
    intro hh
    exact hne (Option.some_inj.mp hh)
